import Mathlib

/-!
Shallow embedding of the whisper-wa forensic acquisition pipeline
(Backend/acquisition.py, Backend/connected.py, Backend/decrypt.py).

External process execution is modelled by an oracle world: `World.oracle`
gives the outcome of the n-th external call, `World.writes` gives the file
content an external process deposits on success (used by `adb pull` and by
the decrypt tool), `World.fs` is the local filesystem (association list of
path to byte content, most recent write first), `World.dirs` the set of
created directories, and `World.trace` the ordered record of every external
invocation together with the timeout the code passed to the
process-execution primitive (none when the source passes no timeout).
-/

namespace WhisperWA

/-- Bytes of a file, as natural numbers (the byte values). -/
abbrev Bytes := List Nat

/-! ## calculate_sha256 (acquisition.py lines 7-12)

The code feeds the file to a hashlib sha256 object in 4096-byte chunks.
We model the hashlib object by the byte sequence fed so far, and take the
digest function itself as a parameter `h : Bytes → String` (the SHA-256
compression is external to the repository); `hexdigest()` applies `h` to
the accumulated bytes. -/

/-- Model of a hashlib sha256 object: the state is the sequence of bytes
fed to `update` so far. -/
structure Sha256Ctx where
  fed : Bytes
deriving Repr, DecidableEq

/-- hashlib `update`: feed a block of bytes. -/
def Sha256Ctx.update (c : Sha256Ctx) (b : Bytes) : Sha256Ctx :=
  Sha256Ctx.mk (c.fed ++ b)

/-- The `iter(lambda: f.read(4096), b"")` loop: successive chunks of at
most 4096 bytes until the data is exhausted.  The fuel argument bounds the
number of iterations; `data.length` iterations always suffice since every
round consumes at least one byte of a nonempty remainder. -/
def readChunksAux : Nat → Bytes → List Bytes
  | 0, _ => []
  | _, [] => []
  | fuel + 1, b :: rest => (b :: rest).take 4096 :: readChunksAux fuel ((b :: rest).drop 4096)

/-- All 4096-byte chunks of a byte sequence, in order. -/
def readChunks (data : Bytes) : List Bytes :=
  readChunksAux data.length data

/-- acquisition.calculate_sha256: stream the data into the sha256 context
in 4096-byte chunks and take the hex digest (`h` applied to the bytes the
context has absorbed). -/
def calculate_sha256 (h : Bytes → String) (data : Bytes) : String :=
  h ((readChunks data).foldl Sha256Ctx.update (Sha256Ctx.mk [])).fed

/-! ## External process world -/

/-- Outcome of one external process invocation, as the subprocess module
reports it: normal completion with an exit code and captured output, a
timeout, or a missing binary. -/
inductive RunOutcome where
  | completed (returncode : Int) (stdout : String) (stderr : String)
  | timedOut
  | binaryMissing
deriving Repr, DecidableEq

/-- One recorded external invocation: the argument vector and the timeout
the code handed to the process-execution primitive (none when the call
passes no timeout, as in acquisition.py). -/
structure Invocation where
  cmd : List String
  timeoutSec : Option Nat
deriving Repr, DecidableEq

/-- The world threaded through the pipeline: the oracle for external call
outcomes and written file contents, the local filesystem, the created
directories, the number of calls made, and the invocation trace. -/
structure World where
  oracle : Nat → RunOutcome
  writes : Nat → Option Bytes
  fs : List (String × Bytes)
  dirs : List String
  calls : Nat
  trace : List Invocation

/-- Look up a file of the modelled filesystem (most recent write wins). -/
def fsGet (fs : List (String × Bytes)) (p : String) : Option Bytes :=
  match fs.find? (fun e => e.1 == p) with
  | some e => some e.2
  | none => none

/-- os.makedirs(path, exist_ok=True): record the directory, idempotently. -/
def mkdirs (dirs : List String) (p : String) : List String :=
  if dirs.contains p then dirs else p :: dirs

/-- Consume one oracle outcome and record the invocation. -/
def World.bump (w : World) (cmd : List String) (t : Option Nat) : World :=
  World.mk w.oracle w.writes w.fs w.dirs (w.calls + 1) (w.trace ++ [Invocation.mk cmd t])

/-- Python exceptions raised around subprocess calls. -/
inductive PyExc where
  | calledProcessError (cmd : List String) (returncode : Int)
  | timeoutExpired (cmd : List String) (timeoutSec : Option Nat)
  | fileNotFoundError (cmd : List String)
deriving Repr, DecidableEq

/-- str(e) of the exceptions above, recorded in FAILED manifest entries. -/
def PyExc.str : PyExc → String
  | .calledProcessError _ rc => "Command returned non-zero exit status " ++ toString rc ++ "."
  | .timeoutExpired _ _ => "Command timed out"
  | .fileNotFoundError _ => "No such file or directory"

/-! ## connected.py primitives -/

/-- python str.strip(): drop leading and trailing whitespace.  (The core
String.trim is not used because its Substring helpers do not reduce in
the kernel; this structural definition agrees with it.) -/
def pyStrip (s : String) : String :=
  String.mk (((s.data.dropWhile Char.isWhitespace).reverse.dropWhile Char.isWhitespace).reverse)

/-- python str.lower() (over the ASCII range, as Char.toLower is). -/
def pyLower (s : String) : String :=
  String.mk (s.data.map Char.toLower)

/-- python str.startswith(pre). -/
def pyStartsWith (s pre : String) : Bool :=
  pre.data.isPrefixOf s.data

/-- Split on newline characters; together with the blank-line skip of the
device parser this matches python str.splitlines() on the outputs the
parser consumes. -/
def pyLinesAux : List Char → List Char → List String
  | [], acc => [String.mk acc.reverse]
  | c :: rest, acc =>
    if c = '\n' then String.mk acc.reverse :: pyLinesAux rest []
    else pyLinesAux rest (c :: acc)

/-- The lines of a string. -/
def pyLines (s : String) : List String :=
  pyLinesAux s.data []

/-- python str.split() with no argument: whitespace-delimited tokens,
empty fields dropped. -/
def pyTokensAux : List Char → List Char → List String
  | [], acc => if acc = [] then [] else [String.mk acc.reverse]
  | c :: rest, acc =>
    if Char.isWhitespace c then
      if acc = [] then pyTokensAux rest []
      else String.mk acc.reverse :: pyTokensAux rest []
    else pyTokensAux rest (c :: acc)

/-- Whitespace-delimited tokens of a string. -/
def pyTokens (s : String) : List String :=
  pyTokensAux s.data []

/-- connected._adb: the bridge tool path, defaulting to "adb" on PATH. -/
def adbTool (adb_path : Option String) : String :=
  adb_path.getD "adb"

/-- connected._run (lines 16-24): subprocess.run with capture_output=True
and an explicit timeout; returns (returncode, stripped stdout, stripped
stderr).  A timeout or a missing binary raises out of it. -/
def _run (w : World) (cmd : List String) (timeout : Nat) :
    Except PyExc (Int × String × String) × World :=
  let w1 := w.bump cmd (some timeout)
  match w.oracle w.calls with
  | .completed rc out err => (Except.ok (rc, pyStrip out, pyStrip err), w1)
  | .timedOut => (Except.error (PyExc.timeoutExpired cmd (some timeout)), w1)
  | .binaryMissing => (Except.error (PyExc.fileNotFoundError cmd), w1)

/-- Substring test on character lists (python `needle in haystack`). -/
def hasSubChars (s p : List Char) : Bool :=
  match s with
  | [] => p == []
  | _ :: tail => p.isPrefixOf s || hasSubChars tail p

/-- Substring test on strings (python `needle in haystack`). -/
def hasSub (s p : String) : Bool :=
  hasSubChars s.toList p.toList

/-- Python `a or b` on strings: a if nonempty, else b. -/
def pyOr (a b : String) : String :=
  if a == "" then b else a

/-! ## connected.adb_devices (lines 32-46) -/

/-- Result shape of adb_devices: the success dict has no error key (error
is none there), the failure dict carries the error message and an empty
device list. -/
structure DevicesResult where
  ok : Bool
  error : Option String
  devices : List String
  stdout : String
  stderr : String
deriving Repr, DecidableEq

/-- One iteration of the device-list parsing loop: strip the line, skip
blank and header lines, split on whitespace (python str.split drops empty
fields) and keep the first token of lines whose second token is
"device". -/
def deviceFromLine (acc : List String) (rawLine : String) : List String :=
  let line := pyStrip rawLine
  if line == "" then acc
  else if pyStartsWith line "List of devices" then acc
  else
    match pyTokens line with
    | p0 :: p1 :: _ => if p1 == "device" then acc ++ [p0] else acc
    | _ => acc

/-- connected.adb_devices: run `adb devices` with a 20s timeout and parse
the line-oriented output.  An exception of _run propagates. -/
def adb_devices (w : World) (adb_path : Option String) :
    Except PyExc DevicesResult × World :=
  let adb := adbTool adb_path
  let r := _run w [adb, "devices"] 20
  match r.1 with
  | Except.error e => (Except.error e, r.2)
  | Except.ok (code, out, err) =>
    if code != 0 then
      (Except.ok (DevicesResult.mk false (some "adb devices failed") [] out err), r.2)
    else
      (Except.ok (DevicesResult.mk true none ((pyLines out).foldl deviceFromLine []) out err), r.2)

/-! ## connected.adb_connect_wifi (lines 49-54) -/

/-- Result shape of adb_connect_wifi. -/
structure ConnectWifiResult where
  ok : Bool
  returncode : Int
  stdout : String
  stderr : String
deriving Repr, DecidableEq

/-- connected.adb_connect_wifi: run `adb connect <ip_port>` with a 25s
timeout; success is exit code zero plus a case-insensitive "connected"
marker in the combined output. -/
def adb_connect_wifi (w : World) (ip_port : String) (adb_path : Option String) :
    Except PyExc ConnectWifiResult × World :=
  let r := _run w [adbTool adb_path, "connect", ip_port] 25
  match r.1 with
  | Except.error e => (Except.error e, r.2)
  | Except.ok (code, out, err) =>
    let text := pyLower (out ++ " " ++ err)
    let ok := code == 0 && (hasSub text "connected" || hasSub text "already connected")
    (Except.ok (ConnectWifiResult.mk ok code out err), r.2)

/-! ## connected.adb_root_check (lines 57-78) -/

/-- Result shape of adb_root_check. -/
structure RootResult where
  ok : Bool
  rooted : Bool
  method : String
  stdout : String
  stderr : String
deriving Repr, DecidableEq

/-- The `base` argument vector of adb_root_check: `[adb]`, extended by
`-s <serial>` when a non-empty serial is given (python truthiness of the
serial string). -/
def rootBase (adb : String) (serial : Option String) : List String :=
  match serial with
  | some s => if s == "" then [adb] else [adb, "-s", s]
  | none => [adb]

/-- connected.adb_root_check: try `adb shell su -c id` first (20s); on
exit code 0 with a uid=0 marker report rooted via su.  Otherwise fall back
to `adb shell id` (20s); on uid=0 report rooted via id.  Otherwise report
rooted=false with ok=true.  An exception of either _run call propagates. -/
def adb_root_check (w : World) (serial : Option String) (adb_path : Option String) :
    Except PyExc RootResult × World :=
  let base := rootBase (adbTool adb_path) serial
  let r1 := _run w (base ++ ["shell", "su", "-c", "id"]) 20
  match r1.1 with
  | Except.error e => (Except.error e, r1.2)
  | Except.ok (code, out, err) =>
    if code == 0 && hasSub out "uid=0" then
      (Except.ok (RootResult.mk true true "su" out err), r1.2)
    else
      let r2 := _run r1.2 (base ++ ["shell", "id"]) 20
      match r2.1 with
      | Except.error e => (Except.error e, r2.2)
      | Except.ok (code2, out2, err2) =>
        if code2 == 0 && hasSub out2 "uid=0" then
          (Except.ok (RootResult.mk true true "id" out2 err2), r2.2)
        else
          (Except.ok (RootResult.mk true false "su/id" (pyOr out out2) (pyOr err err2)), r2.2)

/-! ## acquisition.pull_whatsapp_evidence (lines 15-71) -/

/-- One entry of the returned evidence list.  The source records the size
as the formatted string `f"{size/1024:.2f} KB"`; we record the underlying
byte count os.path.getsize returned (the formatting is presentation only
and no claim touches it). -/
structure EvResult where
  file : String
  status : String
  hash : Option String
  sizeBytes : Option Nat
  path : Option String
  error : Option String
deriving Repr, DecidableEq

/-- subprocess.run(cmd, check=True) with no timeout and no capture, as the
three per-entry calls of acquisition.py issue it: completion with a
non-zero exit code raises CalledProcessError, a missing binary raises
FileNotFoundError. -/
def runChecked (w : World) (cmd : List String) : Except PyExc Unit × World :=
  let w1 := w.bump cmd none
  match w.oracle w.calls with
  | .completed rc _ _ =>
    if rc == 0 then (Except.ok (), w1) else (Except.error (PyExc.calledProcessError cmd rc), w1)
  | .timedOut => (Except.error (PyExc.timeoutExpired cmd none), w1)
  | .binaryMissing => (Except.error (PyExc.fileNotFoundError cmd), w1)

/-- The `adb pull` call: like runChecked, but a successful pull deposits
the transferred bytes (supplied by the oracle) at the local path. -/
def runCheckedPull (w : World) (cmd : List String) (localPath : String) :
    Except PyExc Unit × World :=
  let w1 := w.bump cmd none
  match w.oracle w.calls with
  | .completed rc _ _ =>
    if rc == 0 then
      (Except.ok (),
       World.mk w1.oracle w1.writes ((localPath, (w.writes w.calls).getD []) :: w1.fs)
         w1.dirs w1.calls w1.trace)
    else (Except.error (PyExc.calledProcessError cmd rc), w1)
  | .timedOut => (Except.error (PyExc.timeoutExpired cmd none), w1)
  | .binaryMissing => (Except.error (PyExc.fileNotFoundError cmd), w1)

/-- The body of the per-file loop of pull_whatsapp_evidence: staging copy
via privileged shell, pull to the local Evidence path, staging removal,
then hash and size of the local file; any exception of the three calls is
caught and recorded as a Failed entry with str(e). -/
def pullOne (h : Bytes → String) (w : World) (save_path name remotePath : String) :
    EvResult × World :=
  let local_file_path := save_path ++ "/" ++ name
  let s1 := runChecked w ["adb", "shell", "su", "-c", "cp " ++ remotePath ++ " /sdcard/" ++ name]
  match s1.1 with
  | Except.error e => (EvResult.mk name "Failed" none none none (some e.str), s1.2)
  | Except.ok _ =>
    let s2 := runCheckedPull s1.2 ["adb", "pull", "/sdcard/" ++ name, local_file_path] local_file_path
    match s2.1 with
    | Except.error e => (EvResult.mk name "Failed" none none none (some e.str), s2.2)
    | Except.ok _ =>
      let s3 := runChecked s2.2 ["adb", "shell", "rm", "/sdcard/" ++ name]
      match s3.1 with
      | Except.error e => (EvResult.mk name "Failed" none none none (some e.str), s3.2)
      | Except.ok _ =>
        let bytes := (fsGet s3.2.fs local_file_path).getD []
        (EvResult.mk name "Success" (some (calculate_sha256 h bytes)) (some bytes.length)
          (some local_file_path) none, s3.2)

/-- acquisition.pull_whatsapp_evidence: create Cases/<case_id>/Evidence,
then process the fixed two-entry manifest — the encrypted database (saved
locally under the name "msgstore.db") and the key — returning one result
per entry in manifest order. -/
def pull_whatsapp_evidence (h : Bytes → String) (w : World) (case_id : String) :
    List EvResult × World :=
  let save_path := "Cases/" ++ case_id ++ "/Evidence"
  let w0 := World.mk w.oracle w.writes w.fs (mkdirs w.dirs save_path) w.calls w.trace
  let p1 := pullOne h w0 save_path "msgstore.db" "/sdcard/WhatsApp/Databases/msgstore.db.crypt14"
  let p2 := pullOne h p1.2 save_path "key" "/data/data/com.whatsapp/files/key"
  ([p1.1, p2.1], p2.2)

/-! ## decrypt.decrypt_whatsapp_db (decrypt.py lines 11-93) -/

/-- Result dict of decrypt_whatsapp_db (absent keys are none). -/
structure DecResult where
  ok : Bool
  step : String
  error : Option String
  returncode : Option Int
  stdout : Option String
  stderr : Option String
  case_id : Option String
  decrypted_db : Option String
  created_at : Option String
deriving Repr, DecidableEq

/-- decrypt.decrypt_whatsapp_db: check that the key and the encrypted
database exist under Cases/<case_id>/Evidence (returning a Missing-input
error without touching the filesystem or any process otherwise), create
the Decrypted directory, invoke the external decrypt tool with the given
timeout, and demand exit code zero plus a non-empty output file.  `now`
stands for datetime.now() at the success point. -/
def decrypt_whatsapp_db (w : World) (case_id : String)
    (base_cases_dir wadecrypt_path crypt_filename key_filename out_filename : String)
    (timeout_sec : Nat) (now : String) : DecResult × World :=
  let case_dir := base_cases_dir ++ "/" ++ case_id
  let evidence_dir := case_dir ++ "/Evidence"
  let decrypted_dir := case_dir ++ "/Decrypted"
  let key_path := evidence_dir ++ "/" ++ key_filename
  let crypt_path := evidence_dir ++ "/" ++ crypt_filename
  let out_db_path := decrypted_dir ++ "/" ++ out_filename
  if (fsGet w.fs key_path).isNone then
    (DecResult.mk false "decrypt" (some ("Missing key file: " ++ key_path))
      none none none none none none, w)
  else if (fsGet w.fs crypt_path).isNone then
    (DecResult.mk false "decrypt" (some ("Missing crypt DB: " ++ crypt_path))
      none none none none none none, w)
  else
    let w0 := World.mk w.oracle w.writes w.fs (mkdirs w.dirs decrypted_dir) w.calls w.trace
    let cmd := [wadecrypt_path, key_path, crypt_path, out_db_path]
    let w1 := w0.bump cmd (some timeout_sec)
    match w0.oracle w0.calls with
    | .binaryMissing =>
      (DecResult.mk false "decrypt"
        (some "wadecrypt not found. Put it in PATH or pass wadecrypt_path.")
        none none none none none none, w1)
    | .timedOut =>
      (DecResult.mk false "decrypt"
        (some ("Timeout after " ++ toString timeout_sec ++ "s"))
        none none none none none none, w1)
    | .completed rc out err =>
      let w2 := World.mk w1.oracle w1.writes
        (match w0.writes w0.calls with
         | some b => (out_db_path, b) :: w1.fs
         | none => w1.fs) w1.dirs w1.calls w1.trace
      if rc != 0 then
        (DecResult.mk false "decrypt" (some "wadecrypt failed") (some rc)
          (some (pyStrip out)) (some (pyStrip err)) none none none, w2)
      else
        match fsGet w2.fs out_db_path with
        | none =>
          (DecResult.mk false "decrypt" (some "Decrypted DB not created or empty")
            none (some (pyStrip out)) (some (pyStrip err)) none none none, w2)
        | some b =>
          if b.length == 0 then
            (DecResult.mk false "decrypt" (some "Decrypted DB not created or empty")
              none (some (pyStrip out)) (some (pyStrip err)) none none none, w2)
          else
            (DecResult.mk true "decrypt" none none (some (pyStrip out)) (some (pyStrip err))
              (some case_id) (some out_db_path) (some now), w2)

/-! ## connected.api_connect (lines 87-158) and api_run_workflow (161-203)

The endpoints compute datetime.now() once at entry; `now` is that value.
Flask's jsonify plus status-code pair is modelled by the result structure
carrying the HTTP status.  The `detail` payloads (the raw sub-result
dicts) are not needed by any claim and are omitted from the result
shape. -/

/-- One timestamped log record appended by the endpoints. -/
structure LogEntry where
  ts : String
  level : String
  msg : String
deriving Repr, DecidableEq

/-- Response of api_connect. -/
structure ApiConnectResult where
  ok : Bool
  step : String
  httpStatus : Nat
  error : Option String
  rooted : Option Bool
  case_id : Option String
  serial : Option String
  logs : List LogEntry
deriving Repr, DecidableEq

/-- f"Device detected: {serial}" with serial possibly None. -/
def serialText : Option String → String
  | some s => s
  | none => "None"

/-- The tail of api_connect shared by the usb and wifi branches: select
the first enumerated device, log it, run the root check, and hard-fail on
a non-rooted device (HTTP 403). -/
def apiConnectTail (w : World) (devices : List String) (logs : List LogEntry)
    (case_id now : String) : Except PyExc ApiConnectResult × World :=
  let serial := devices.head?
  let logs := logs ++ [LogEntry.mk now "SUCCESS" ("Device detected: " ++ serialText serial)]
  let logs := logs ++ [LogEntry.mk now "INFO" "Checking root access..."]
  let r := adb_root_check w serial none
  match r.1 with
  | Except.error e => (Except.error e, r.2)
  | Except.ok root =>
    if !root.ok then
      (Except.ok (ApiConnectResult.mk false "root_check" 400 none none none none logs), r.2)
    else if !root.rooted then
      let logs := logs ++ [LogEntry.mk now "ERROR" "Device is NOT rooted. Root required to continue."]
      (Except.ok (ApiConnectResult.mk false "root_check" 403 none (some false) none none logs), r.2)
    else
      let logs := logs ++ [LogEntry.mk now "SUCCESS" "Root access OK."]
      (Except.ok (ApiConnectResult.mk true "connected" 200 none (some true)
        (some case_id) serial logs), r.2)

/-- connected.api_connect: probe devices first, then validate and run the
method-specific connection step, then the shared device-selection and
root-check tail.  `method` and `ip_port` are the request-body strings
(the code lowercases and strips them itself). -/
def api_connect (w : World) (method ip_port case_id now : String) :
    Except PyExc ApiConnectResult × World :=
  let method := pyLower method
  let ip_port := pyStrip ip_port
  let logs := [LogEntry.mk now "INFO" "Checking ADB devices..."]
  let d := adb_devices w none
  match d.1 with
  | Except.error e => (Except.error e, d.2)
  | Except.ok dev =>
    if !dev.ok then
      (Except.ok (ApiConnectResult.mk false "devices" 400 none none none none logs), d.2)
    else if method == "wifi" then
      if ip_port == "" then
        (Except.ok (ApiConnectResult.mk false "validate" 400
          (some "ip_port is required for wifi") none none none logs), d.2)
      else
        let logs := logs ++ [LogEntry.mk now "INFO" ("ADB connect to " ++ ip_port ++ "...")]
        let c := adb_connect_wifi d.2 ip_port none
        match c.1 with
        | Except.error e => (Except.error e, c.2)
        | Except.ok conn =>
          if !conn.ok then
            (Except.ok (ApiConnectResult.mk false "adb_connect" 400 none none none none logs), c.2)
          else
            let d2 := adb_devices c.2 none
            match d2.1 with
            | Except.error e => (Except.error e, d2.2)
            | Except.ok dev2 =>
              if !dev2.ok || dev2.devices.isEmpty then
                (Except.ok (ApiConnectResult.mk false "devices_after_connect" 400
                  none none none none logs), d2.2)
              else
                apiConnectTail d2.2 dev2.devices logs case_id now
    else if method == "usb" then
      if dev.devices.isEmpty then
        (Except.ok (ApiConnectResult.mk false "usb" 400
          (some "No USB device found. Enable USB Debugging.") none none none logs), d.2)
      else
        apiConnectTail d.2 dev.devices logs case_id now
    else
      (Except.ok (ApiConnectResult.mk false "validate" 400
        (some "method must be wifi or usb") none none none logs), d.2)

/-! ## The acquisition gate of api_run_workflow

pull_whatsapp_evidence returns a python list of per-file dicts, but
api_run_workflow gates on `isinstance(acq, dict) and acq.get("ok") is
True`.  We keep the dynamic type of the value the orchestrator inspects. -/

/-- The python value api_run_workflow receives from the acquisition call:
a list of per-file results (what pull_whatsapp_evidence actually
returns) or a dict carrying an "ok" entry. -/
inductive PyAcq where
  | asList (items : List EvResult)
  | asDict (ok : Option Bool)
deriving Repr, DecidableEq

/-- python isinstance(x, dict). -/
def PyAcq.isDict : PyAcq → Bool
  | .asList _ => false
  | .asDict _ => true

/-- python `x.get("ok") is True` (a list has no .get; the conjunction
short-circuits before evaluating it on a list). -/
def PyAcq.getOkIsTrue : PyAcq → Bool
  | .asList _ => false
  | .asDict o => o == some true

/-- Response of api_run_workflow. -/
structure WorkflowResult where
  ok : Bool
  step : String
  httpStatus : Nat
  case_id : Option String
  logs : List LogEntry
  acquisition : Option PyAcq
  decrypt : Option DecResult
deriving Repr, DecidableEq

/-- connected.api_run_workflow: run acquisition, gate on
`isinstance(acq, dict) and acq.get("ok") is True`, then run decryption
(passing the python defaults of decrypt_whatsapp_db for the fixed file
names) and gate on its ok flag. -/
def api_run_workflow (h : Bytes → String) (w : World)
    (case_id wadecrypt_path : String) (timeout_sec : Nat) (now : String) :
    WorkflowResult × World :=
  let logs := [LogEntry.mk now "INFO" ("Running acquisition for " ++ case_id ++ "...")]
  let p := pull_whatsapp_evidence h w case_id
  let acq := PyAcq.asList p.1
  if !(acq.isDict && acq.getOkIsTrue) then
    let logs := logs ++ [LogEntry.mk now "ERROR" "Acquisition failed."]
    (WorkflowResult.mk false "acquisition" 400 none logs (some acq) none, p.2)
  else
    let logs := logs ++ [LogEntry.mk now "SUCCESS" "Acquisition completed."]
    let logs := logs ++ [LogEntry.mk now "INFO" "Decrypting WhatsApp database..."]
    let d := decrypt_whatsapp_db p.2 case_id "Cases" wadecrypt_path
      "msgstore.db.crypt14" "key" "msgstore_decrypted.db" timeout_sec now
    if !d.1.ok then
      let logs := logs ++ [LogEntry.mk now "ERROR" "Decryption failed."]
      (WorkflowResult.mk false "decrypt" 400 none logs (some acq) (some d.1), d.2)
    else
      let logs := logs ++ [LogEntry.mk now "SUCCESS" "Decryption completed."]
      (WorkflowResult.mk true "done" 200 (some case_id) logs (some acq) (some d.1), d.2)

/-! ## Concrete worlds used by witnesses and counterexamples -/

/-- A concrete stand-in for the external SHA-256 digest function. -/
def digestFn : Bytes → String :=
  fun b => "digest" ++ toString b.length

/-- Every external call exits 0 with empty output; every pull delivers
three bytes. -/
def wAllOk : World :=
  World.mk (fun _ => RunOutcome.completed 0 "" "") (fun _ => some [7, 7, 7]) [] [] 0 []

/-- Every external call exits 0; every pull delivers an empty file. -/
def wEmptyPull : World :=
  World.mk (fun _ => RunOutcome.completed 0 "" "") (fun _ => some []) [] [] 0 []

/-- The third external call (the staging rm of the first manifest entry)
exits 1; everything else exits 0 and pulls deliver one byte. -/
def wRmFail : World :=
  World.mk (fun n => if n == 2 then RunOutcome.completed 1 "" "" else RunOutcome.completed 0 "" "")
    (fun _ => some [1]) [] [] 0 []

/-- The first external call (the staging cp of the first manifest entry)
exits 1; everything else exits 0 and pulls deliver one byte. -/
def wCpFail : World :=
  World.mk (fun n => if n == 0 then RunOutcome.completed 1 "" "" else RunOutcome.completed 0 "" "")
    (fun _ => some [9]) [] [] 0 []

/-- The first external call times out. -/
def wFirstTimesOut : World :=
  World.mk (fun _ => RunOutcome.timedOut) (fun _ => none) [] [] 0 []

/-- One enumerated device, every call exiting 0. -/
def wOneDevice : World :=
  World.mk (fun _ => RunOutcome.completed 0 "List of devices attached\nemulator-5554 device" "")
    (fun _ => none) [] [] 0 []

/-- A filesystem holding only the key file of Case_001. -/
def wKeyOnly : World :=
  World.mk (fun _ => RunOutcome.completed 0 "" "") (fun _ => none)
    [("Cases/Case_001/Evidence/key", [1])] [] 0 []

/-- Both identity checks complete: su exits 1, plain id exits 0 without a
root marker. -/
def wNotRooted : World :=
  World.mk (fun n => if n == 0 then RunOutcome.completed 1 "" "su: not found"
      else RunOutcome.completed 0 "uid=2000(shell)" "")
    (fun _ => none) [] [] 0 []

/-! ## Helper lemmas -/

theorem readChunksAux_foldl (fuel : Nat) (data : Bytes) (hf : data.length ≤ fuel) (acc : Bytes) :
    (readChunksAux fuel data).foldl (fun a b => a ++ b) acc = acc ++ data := by
  induction fuel generalizing data acc with
  | zero =>
    have hd : data = [] := List.eq_nil_of_length_eq_zero (Nat.le_zero.mp hf)
    subst hd
    simp [readChunksAux]
  | succ n ih =>
    cases data with
    | nil => simp [readChunksAux]
    | cons b rest =>
      have hlen : ((b :: rest).drop 4096).length ≤ n := by
        simp only [List.length_drop, List.length_cons]
        simp only [List.length_cons] at hf
        omega
      rw [readChunksAux]
      rw [List.foldl_cons]
      rw [ih ((b :: rest).drop 4096) hlen]
      rw [List.append_assoc, List.take_append_drop]

theorem foldl_update_fed (l : List Bytes) (a : Bytes) :
    ((l.foldl Sha256Ctx.update (Sha256Ctx.mk a)).fed) = l.foldl (fun x y => x ++ y) a := by
  induction l generalizing a with
  | nil => rfl
  | cons b t ih =>
    rw [List.foldl_cons, List.foldl_cons]
    exact ih (a ++ b)

/-- The 4096-byte chunked streaming digest of calculate_sha256 equals the
digest of the whole byte sequence. -/
theorem calculate_sha256_eq (h : Bytes → String) (data : Bytes) :
    calculate_sha256 h data = h data := by
  unfold calculate_sha256 readChunks
  rw [foldl_update_fed]
  rw [readChunksAux_foldl data.length data (Nat.le_refl _) []]
  rfl

theorem fsGet_cons_self (fs : List (String × Bytes)) (p : String) (b : Bytes) :
    fsGet ((p, b) :: fs) p = some b := by
  simp [fsGet, List.find?]

theorem fsGet_cons_ne (fs : List (String × Bytes)) (p q : String) (b : Bytes)
    (hne : q ≠ p) : fsGet ((q, b) :: fs) p = fsGet fs p := by
  simp only [fsGet, List.find?]
  have : (q == p) = false := by
    simp [hne]
  rw [this]

theorem runChecked_fs (w : World) (c : List String) : (runChecked w c).2.fs = w.fs := by
  unfold runChecked
  cases w.oracle w.calls <;> simp [World.bump]
  split <;> rfl

theorem runChecked_trace (w : World) (c : List String) :
    (runChecked w c).2.trace = w.trace ++ [Invocation.mk c none] := by
  unfold runChecked
  cases w.oracle w.calls <;> simp [World.bump]
  split <;> rfl

theorem runCheckedPull_trace (w : World) (c : List String) (p : String) :
    (runCheckedPull w c p).2.trace = w.trace ++ [Invocation.mk c none] := by
  unfold runCheckedPull
  cases w.oracle w.calls <;> simp [World.bump]
  split <;> rfl

theorem runCheckedPull_fs_other (w : World) (c : List String) (p q : String)
    (hne : q ≠ p) : fsGet (runCheckedPull w c p).2.fs q = fsGet w.fs q := by
  unfold runCheckedPull
  cases hw : w.oracle w.calls <;> simp [World.bump]
  split
  case isTrue => exact fsGet_cons_ne _ _ _ _ (fun he => hne he.symm)
  case isFalse => rfl

theorem runCheckedPull_ok_fs (w : World) (c : List String) (p : String) (u : Unit)
    (hok : (runCheckedPull w c p).1 = Except.ok u) :
    ∃ b, (runCheckedPull w c p).2.fs = (p, b) :: w.fs := by
  unfold runCheckedPull at hok ⊢
  cases hw : w.oracle w.calls <;> simp [hw, World.bump] at hok ⊢
  rename_i rc out err
  by_cases hrc : rc = 0
  · rw [if_pos hrc]
    exact ⟨(w.writes w.calls).getD [], rfl⟩
  · rw [if_neg hrc] at hok
    simp at hok

/-- Case analysis of the per-file loop body: an entry is either Failed
with an error text, or Success carrying the digest, size and path of the
pulled local file, which then is present in the filesystem. -/
theorem pullOne_cases (h : Bytes → String) (w : World) (sp n rp : String) :
    ((pullOne h w sp n rp).1.file = n ∧ (pullOne h w sp n rp).1.status = "Failed" ∧
      ((pullOne h w sp n rp).1.error).isSome = true) ∨
    (∃ b, (pullOne h w sp n rp).1 =
        EvResult.mk n "Success" (some (h b)) (some b.length) (some (sp ++ "/" ++ n)) none ∧
      fsGet (pullOne h w sp n rp).2.fs (sp ++ "/" ++ n) = some b) := by
  simp only [pullOne]
  split
  · exact Or.inl ⟨rfl, rfl, rfl⟩
  · split
    · exact Or.inl ⟨rfl, rfl, rfl⟩
    · split
      · exact Or.inl ⟨rfl, rfl, rfl⟩
      · rename_i x1 a1 h1 x2 a2 h2 x3 a3 h3
        obtain ⟨b, hfs⟩ := runCheckedPull_ok_fs _ _ _ _ h2
        have hx : fsGet (runChecked
            (runCheckedPull (runChecked w
                ["adb", "shell", "su", "-c", "cp " ++ rp ++ " /sdcard/" ++ n]).2
              ["adb", "pull", "/sdcard/" ++ n, sp ++ "/" ++ n] (sp ++ "/" ++ n)).2
            ["adb", "shell", "rm", "/sdcard/" ++ n]).2.fs (sp ++ "/" ++ n) = some b := by
          rw [runChecked_fs, hfs]
          exact fsGet_cons_self _ _ _
        refine Or.inr ⟨b, ?_, ?_⟩
        · simp only [hx, Option.getD_some, calculate_sha256_eq]
        · exact hx

/-- pullOne touches no local file other than its own destination path. -/
theorem pullOne_fs_other (h : Bytes → String) (w : World) (sp n rp q : String)
    (hne : q ≠ sp ++ "/" ++ n) :
    fsGet (pullOne h w sp n rp).2.fs q = fsGet w.fs q := by
  simp only [pullOne]
  split
  · rw [runChecked_fs]
  · split
    · rw [runCheckedPull_fs_other _ _ _ _ hne, runChecked_fs]
    · split
      · rw [runChecked_fs, runCheckedPull_fs_other _ _ _ _ hne, runChecked_fs]
      · rw [runChecked_fs, runCheckedPull_fs_other _ _ _ _ hne, runChecked_fs]

/-- Every invocation pullOne appends to the trace is issued without a
timeout (subprocess.run is called with no timeout argument). -/
theorem pullOne_trace (h : Bytes → String) (w : World) (sp n rp : String) :
    ∃ l, (pullOne h w sp n rp).2.trace = w.trace ++ l ∧
      ∀ i ∈ l, i.timeoutSec = none := by
  simp only [pullOne]
  split
  · refine ⟨[Invocation.mk ["adb", "shell", "su", "-c", "cp " ++ rp ++ " /sdcard/" ++ n] none],
      runChecked_trace w _, ?_⟩
    simp
  · split
    · refine ⟨[Invocation.mk ["adb", "shell", "su", "-c", "cp " ++ rp ++ " /sdcard/" ++ n] none,
        Invocation.mk ["adb", "pull", "/sdcard/" ++ n, sp ++ "/" ++ n] none], ?_, ?_⟩
      · rw [runCheckedPull_trace, runChecked_trace, List.append_assoc]
        rfl
      · simp
    · split
      · refine ⟨[Invocation.mk ["adb", "shell", "su", "-c", "cp " ++ rp ++ " /sdcard/" ++ n] none,
          Invocation.mk ["adb", "pull", "/sdcard/" ++ n, sp ++ "/" ++ n] none,
          Invocation.mk ["adb", "shell", "rm", "/sdcard/" ++ n] none], ?_, ?_⟩
        · rw [runChecked_trace, runCheckedPull_trace, runChecked_trace,
            List.append_assoc, List.append_assoc]
          rfl
        · simp
      · refine ⟨[Invocation.mk ["adb", "shell", "su", "-c", "cp " ++ rp ++ " /sdcard/" ++ n] none,
          Invocation.mk ["adb", "pull", "/sdcard/" ++ n, sp ++ "/" ++ n] none,
          Invocation.mk ["adb", "shell", "rm", "/sdcard/" ++ n] none], ?_, ?_⟩
        · rw [runChecked_trace, runCheckedPull_trace, runChecked_trace,
            List.append_assoc, List.append_assoc]
          rfl
        · simp

/-- adb_devices when the underlying process completes with exit code 0:
the probe succeeds, parsing the stripped output, and records one
invocation with a 20s timeout. -/
theorem adb_devices_ok (w : World) (out err : String)
    (hw : w.oracle w.calls = RunOutcome.completed 0 out err) :
    adb_devices w none =
      (Except.ok (DevicesResult.mk true none
        ((pyLines (pyStrip out)).foldl deviceFromLine []) (pyStrip out) (pyStrip err)),
       w.bump ["adb", "devices"] (some 20)) := by
  unfold adb_devices _run adbTool
  rw [show (none : Option String).getD "adb" = "adb" from rfl]
  rw [hw]
  simp

/-! ## Claim C1 -/

/-- Claim C1 (refuted; the code is the bug): api_run_workflow can never
return ok=true at step "done".  For every world — in particular the happy
path where the method was USB, a device was enumerated, the root check
reported su/uid=0 and both manifest files transferred with non-zero
size — it returns ok=false at step "acquisition" with HTTP 400, because
it gates the acquisition result with `isinstance(acq, dict) and
acq.get("ok") is True` while pull_whatsapp_evidence returns a list. -/
theorem C1_workflow_always_fails_at_acquisition (h : Bytes → String) (w : World)
    (case_id wadecrypt_path : String) (timeout_sec : Nat) (now : String) :
    (api_run_workflow h w case_id wadecrypt_path timeout_sec now).1.ok = false ∧
    (api_run_workflow h w case_id wadecrypt_path timeout_sec now).1.step = "acquisition" ∧
    (api_run_workflow h w case_id wadecrypt_path timeout_sec now).1.httpStatus = 400 ∧
    (api_run_workflow h w case_id wadecrypt_path timeout_sec now).1.decrypt = none := by
  simp [api_run_workflow, PyAcq.isDict]

/-! ## Claim C2 -/

/-- Claim C2 (refuted; the code is the bug): a fully successful
acquisition for Case_001 writes the local evidence under the names
Cases/Case_001/Evidence/msgstore.db and Cases/Case_001/Evidence/key —
not under the manifest name msgstore.db.crypt14 the decryption step
requires (decrypt.py's own docstring expects
Cases/<case_id>/Evidence/msgstore.db.crypt14 from the acquisition team) —
so the subsequent decrypt fails reporting the crypt DB missing, without
ever invoking the decrypt tool. -/
theorem C2_manifest_name_mismatch :
    (fsGet (pull_whatsapp_evidence digestFn wAllOk "Case_001").2.fs
      "Cases/Case_001/Evidence/msgstore.db" = some [7, 7, 7]) ∧
    (fsGet (pull_whatsapp_evidence digestFn wAllOk "Case_001").2.fs
      "Cases/Case_001/Evidence/key" = some [7, 7, 7]) ∧
    (fsGet (pull_whatsapp_evidence digestFn wAllOk "Case_001").2.fs
      "Cases/Case_001/Evidence/msgstore.db.crypt14" = none) ∧
    ((pull_whatsapp_evidence digestFn wAllOk "Case_001").1.map EvResult.status =
      ["Success", "Success"]) ∧
    ((decrypt_whatsapp_db (pull_whatsapp_evidence digestFn wAllOk "Case_001").2 "Case_001"
        "Cases" "wadecrypt" "msgstore.db.crypt14" "key" "msgstore_decrypted.db" 180 "T").1.ok
      = false) ∧
    ((decrypt_whatsapp_db (pull_whatsapp_evidence digestFn wAllOk "Case_001").2 "Case_001"
        "Cases" "wadecrypt" "msgstore.db.crypt14" "key" "msgstore_decrypted.db" 180 "T").1.error
      = some "Missing crypt DB: Cases/Case_001/Evidence/msgstore.db.crypt14") ∧
    ((decrypt_whatsapp_db (pull_whatsapp_evidence digestFn wAllOk "Case_001").2 "Case_001"
        "Cases" "wadecrypt" "msgstore.db.crypt14" "key" "msgstore_decrypted.db" 180 "T").2.trace
      = (pull_whatsapp_evidence digestFn wAllOk "Case_001").2.trace) := by
  exact ⟨rfl, rfl, rfl, rfl, rfl, rfl, rfl⟩

/-! ## Claim C3 -/

/-- Claim C3 counterexample: a wifi run with no address against a world
whose device probe succeeds does fail at step "validate" — but the trace
already holds one bridge-tool invocation (the initial `adb devices`
probe), so the claim's "no adb process is invoked at any point before
that failure" is false. -/
theorem C3_cex_devices_probe_precedes_validate :
    (api_connect wOneDevice "wifi" "" "Case_001" "T").1 =
      Except.ok (ApiConnectResult.mk false "validate" 400
        (some "ip_port is required for wifi") none none none
        [LogEntry.mk "T" "INFO" "Checking ADB devices..."]) ∧
    (api_connect wOneDevice "wifi" "" "Case_001" "T").2.trace =
      [Invocation.mk ["adb", "devices"] (some 20)] := by
  exact ⟨rfl, rfl⟩

/-- Claim C3 amended: for every wifi workflow run with no address whose
initial device enumeration completes with exit code 0, the result is a
failure at step "validate" (HTTP 400, "ip_port is required for wifi") —
after exactly one bridge-tool invocation, the `adb devices` probe the
endpoint always issues first. -/
theorem C3_validate_after_one_probe (w : World) (case_id now out err : String)
    (hw : w.oracle w.calls = RunOutcome.completed 0 out err) :
    (api_connect w "wifi" "" case_id now).1 =
      Except.ok (ApiConnectResult.mk false "validate" 400
        (some "ip_port is required for wifi") none none none
        [LogEntry.mk now "INFO" "Checking ADB devices..."]) ∧
    (api_connect w "wifi" "" case_id now).2.trace =
      w.trace ++ [Invocation.mk ["adb", "devices"] (some 20)] := by
  unfold api_connect
  rw [adb_devices_ok w out err hw]
  simp only [show pyLower "wifi" = "wifi" from rfl, show pyStrip "" = "" from rfl]
  simp [World.bump]

/-- Witness for C3_validate_after_one_probe at a concrete world. -/
theorem C3_validate_after_one_probe_witness :
    (api_connect wOneDevice "wifi" "" "Case_002" "T2").1 =
      Except.ok (ApiConnectResult.mk false "validate" 400
        (some "ip_port is required for wifi") none none none
        [LogEntry.mk "T2" "INFO" "Checking ADB devices..."]) ∧
    (api_connect wOneDevice "wifi" "" "Case_002" "T2").2.trace =
      [Invocation.mk ["adb", "devices"] (some 20)] :=
  C3_validate_after_one_probe wOneDevice "Case_002" "T2"
    "List of devices attached\nemulator-5554 device" "" rfl

/-! ## Claim C4 -/

/-- The two local evidence paths of one case are distinct (their lengths
differ). -/
theorem keyPathNeDbPath (sp : String) :
    sp ++ "/" ++ "key" ≠ sp ++ "/" ++ "msgstore.db" := by
  intro he
  have hl := congrArg String.length he
  simp only [String.length_append] at hl
  rw [show ("key" : String).length = 3 from rfl,
      show ("msgstore.db" : String).length = 11 from rfl] at hl
  omega

/-- Claim C4 counterexample: with every transfer succeeding but the pulled
files empty, both entries are still recorded Success with size 0 bytes —
so "status SUCCESS implies size in bytes greater than zero" is false. -/
theorem C4_cex_success_with_empty_file :
    ((pull_whatsapp_evidence digestFn wEmptyPull "Case_001").1.map EvResult.status =
      ["Success", "Success"]) ∧
    ((pull_whatsapp_evidence digestFn wEmptyPull "Case_001").1.map EvResult.sizeBytes =
      [some 0, some 0]) ∧
    fsGet (pull_whatsapp_evidence digestFn wEmptyPull "Case_001").2.fs
      "Cases/Case_001/Evidence/msgstore.db" = some [] := by
  exact ⟨rfl, rfl, rfl⟩

/-- Claim C4 amended: for every manifest entry of pull_whatsapp_evidence
with status Success, the local file exists in the resulting filesystem and
the recorded contentHash equals the digest of that file's whole byte
sequence (the 4096-byte chunked streaming digest equals the whole-sequence
digest), and the recorded size is the file's byte count — which, however,
may be zero, since the code records Success without checking the size. -/
theorem C4_success_hash_matches_file (h : Bytes → String) (w : World) (c : String)
    (e : EvResult) (hmem : e ∈ (pull_whatsapp_evidence h w c).1)
    (hs : e.status = "Success") :
    ∃ p b, e.path = some p ∧
      fsGet (pull_whatsapp_evidence h w c).2.fs p = some b ∧
      e.hash = some (h b) ∧ e.sizeBytes = some b.length ∧
      calculate_sha256 h b = h b := by
  simp only [pull_whatsapp_evidence] at hmem ⊢
  simp only [List.mem_cons, List.mem_singleton, List.not_mem_nil, or_false] at hmem
  rcases hmem with he | he
  · rcases pullOne_cases h
        (World.mk w.oracle w.writes w.fs (mkdirs w.dirs ("Cases/" ++ c ++ "/Evidence"))
          w.calls w.trace)
        ("Cases/" ++ c ++ "/Evidence") "msgstore.db"
        "/sdcard/WhatsApp/Databases/msgstore.db.crypt14" with
      ⟨hf, hst, herr⟩ | ⟨b, hrec, hfs⟩
    · rw [he, hst] at hs
      exact absurd hs (by decide)
    · refine ⟨"Cases/" ++ c ++ "/Evidence" ++ "/" ++ "msgstore.db", b, ?_, ?_, ?_, ?_,
        calculate_sha256_eq h b⟩
      · rw [he, hrec]
      · rw [pullOne_fs_other _ _ _ _ _ _
          (Ne.symm (keyPathNeDbPath ("Cases/" ++ c ++ "/Evidence")))]
        exact hfs
      · rw [he, hrec]
      · rw [he, hrec]
  · rcases pullOne_cases h
        (pullOne h
          (World.mk w.oracle w.writes w.fs (mkdirs w.dirs ("Cases/" ++ c ++ "/Evidence"))
            w.calls w.trace)
          ("Cases/" ++ c ++ "/Evidence") "msgstore.db"
          "/sdcard/WhatsApp/Databases/msgstore.db.crypt14").2
        ("Cases/" ++ c ++ "/Evidence") "key" "/data/data/com.whatsapp/files/key" with
      ⟨hf, hst, herr⟩ | ⟨b, hrec, hfs⟩
    · rw [he, hst] at hs
      exact absurd hs (by decide)
    · refine ⟨"Cases/" ++ c ++ "/Evidence" ++ "/" ++ "key", b, ?_, hfs, ?_, ?_,
        calculate_sha256_eq h b⟩
      · rw [he, hrec]
      · rw [he, hrec]
      · rw [he, hrec]

/-- Witness for C4_success_hash_matches_file: the key entry of a fully
successful run. -/
theorem C4_success_hash_matches_file_witness :
    ∃ p b,
      (EvResult.mk "key" "Success" (some (digestFn [7, 7, 7])) (some 3)
        (some "Cases/Case_001/Evidence/key") none).path = some p ∧
      fsGet (pull_whatsapp_evidence digestFn wAllOk "Case_001").2.fs p = some b ∧
      (EvResult.mk "key" "Success" (some (digestFn [7, 7, 7])) (some 3)
        (some "Cases/Case_001/Evidence/key") none).hash = some (digestFn b) ∧
      (EvResult.mk "key" "Success" (some (digestFn [7, 7, 7])) (some 3)
        (some "Cases/Case_001/Evidence/key") none).sizeBytes = some b.length ∧
      calculate_sha256 digestFn b = digestFn b := by
  have hm : (EvResult.mk "key" "Success" (some (digestFn [7, 7, 7])) (some 3)
      (some "Cases/Case_001/Evidence/key") none) ∈
      (pull_whatsapp_evidence digestFn wAllOk "Case_001").1 := by
    rw [show (pull_whatsapp_evidence digestFn wAllOk "Case_001").1 =
      [EvResult.mk "msgstore.db" "Success" (some (digestFn [7, 7, 7])) (some 3)
        (some "Cases/Case_001/Evidence/msgstore.db") none,
       EvResult.mk "key" "Success" (some (digestFn [7, 7, 7])) (some 3)
        (some "Cases/Case_001/Evidence/key") none] from rfl]
    exact List.mem_cons_of_mem _ (List.mem_singleton.mpr rfl)
  exact C4_success_hash_matches_file digestFn wAllOk "Case_001" _ hm rfl

/-! ## Claim C5 -/

/-- The loop body when remote copy and local pull exit 0 but the staging
rm exits non-zero: the CalledProcessError of the rm is caught and the
entry recorded Failed, although the pulled file is in the filesystem. -/
theorem pullOne_rm_fail_spec (h : Bytes → String) (w : World) (sp n rp : String)
    (rc : Int) (o1 s1 o2 s2 o3 s3 : String)
    (h1 : w.oracle w.calls = RunOutcome.completed 0 o1 s1)
    (h2 : w.oracle (w.calls + 1) = RunOutcome.completed 0 o2 s2)
    (h3 : w.oracle (w.calls + 1 + 1) = RunOutcome.completed rc o3 s3)
    (hrc : rc ≠ 0) :
    (pullOne h w sp n rp).1 = EvResult.mk n "Failed" none none none
      (some (PyExc.str (PyExc.calledProcessError ["adb", "shell", "rm", "/sdcard/" ++ n] rc))) ∧
    fsGet (pullOne h w sp n rp).2.fs (sp ++ "/" ++ n) =
      some ((w.writes (w.calls + 1)).getD []) := by
  have hrc' : (rc == 0) = false := by
    simpa using hrc
  constructor <;>
    simp [pullOne, runChecked, runCheckedPull, World.bump, h1, h2, h3, hrc', fsGet_cons_self]

/-- Claim C5 counterexample: the remote copy and the local pull of the
first manifest entry succeed — the pulled file sits in the Evidence
directory — but the staging rm exits 1, and the entry is recorded Failed
with the process error text, not SUCCESS. -/
theorem C5_cex_cleanup_failure_marks_failed :
    ((pull_whatsapp_evidence digestFn wRmFail "Case_001").1.map EvResult.status =
      ["Failed", "Success"]) ∧
    ((pull_whatsapp_evidence digestFn wRmFail "Case_001").1.map EvResult.error =
      [some "Command returned non-zero exit status 1.", none]) ∧
    fsGet (pull_whatsapp_evidence digestFn wRmFail "Case_001").2.fs
      "Cases/Case_001/Evidence/msgstore.db" = some [1] := by
  exact ⟨rfl, rfl, rfl⟩

/-- Claim C5 amended: when the remote copy and the local pull of the
first manifest entry both succeed but the remote staging-file rm exits
non-zero, the cleanup failure does invalidate the pull: the entry is
recorded Failed carrying the CalledProcessError text, although the
pulled local file is present in the Evidence directory. -/
theorem C5_cleanup_failure_invalidates (h : Bytes → String) (w : World) (c : String)
    (rc : Int) (o1 s1 o2 s2 o3 s3 : String)
    (h1 : w.oracle w.calls = RunOutcome.completed 0 o1 s1)
    (h2 : w.oracle (w.calls + 1) = RunOutcome.completed 0 o2 s2)
    (h3 : w.oracle (w.calls + 1 + 1) = RunOutcome.completed rc o3 s3)
    (hrc : rc ≠ 0) :
    (pull_whatsapp_evidence h w c).1.get? 0 = some (EvResult.mk "msgstore.db" "Failed"
      none none none
      (some (PyExc.str (PyExc.calledProcessError
        ["adb", "shell", "rm", "/sdcard/" ++ "msgstore.db"] rc)))) ∧
    fsGet (pull_whatsapp_evidence h w c).2.fs
      ("Cases/" ++ c ++ "/Evidence" ++ "/" ++ "msgstore.db") =
      some ((w.writes (w.calls + 1)).getD []) := by
  have hspec := pullOne_rm_fail_spec h
    (World.mk w.oracle w.writes w.fs (mkdirs w.dirs ("Cases/" ++ c ++ "/Evidence")) w.calls
      w.trace)
    ("Cases/" ++ c ++ "/Evidence") "msgstore.db" "/sdcard/WhatsApp/Databases/msgstore.db.crypt14"
    rc o1 s1 o2 s2 o3 s3 h1 h2 h3 hrc
  simp only [pull_whatsapp_evidence]
  constructor
  · rw [show ∀ (a b : EvResult), [a, b].get? 0 = some a from fun a b => rfl]
    rw [hspec.1]
  · rw [pullOne_fs_other _ _ _ _ _ _
      (Ne.symm (keyPathNeDbPath ("Cases/" ++ c ++ "/Evidence")))]
    exact hspec.2

/-- Witness for C5_cleanup_failure_invalidates at the concrete rm-fails
world. -/
theorem C5_cleanup_failure_invalidates_witness :
    (pull_whatsapp_evidence digestFn wRmFail "Case_001").1.get? 0 =
      some (EvResult.mk "msgstore.db" "Failed" none none none
        (some (PyExc.str (PyExc.calledProcessError
          ["adb", "shell", "rm", "/sdcard/" ++ "msgstore.db"] 1)))) ∧
    fsGet (pull_whatsapp_evidence digestFn wRmFail "Case_001").2.fs
      ("Cases/" ++ "Case_001" ++ "/Evidence" ++ "/" ++ "msgstore.db") =
      some ((wRmFail.writes (wRmFail.calls + 1)).getD []) :=
  C5_cleanup_failure_invalidates digestFn wRmFail "Case_001" 1 "" "" "" "" "" ""
    rfl rfl rfl (by decide)

/-! ## Claim C6 -/

theorem _run_trace (w : World) (cmd : List String) (t : Nat) :
    (_run w cmd t).2.trace = w.trace ++ [Invocation.mk cmd (some t)] := by
  unfold _run
  cases w.oracle w.calls <;> rfl

theorem adb_devices_trace (w : World) (ap : Option String) :
    (adb_devices w ap).2.trace =
      w.trace ++ [Invocation.mk [adbTool ap, "devices"] (some 20)] := by
  simp only [adb_devices]
  split
  · exact _run_trace w _ 20
  · split <;> exact _run_trace w _ 20

theorem adb_connect_wifi_trace (w : World) (ip : String) (ap : Option String) :
    (adb_connect_wifi w ip ap).2.trace =
      w.trace ++ [Invocation.mk [adbTool ap, "connect", ip] (some 25)] := by
  simp only [adb_connect_wifi]
  split <;> exact _run_trace w _ 25

theorem adb_root_check_trace (w : World) (srl ap : Option String) :
    ∃ l, (adb_root_check w srl ap).2.trace = w.trace ++ l ∧
      ∀ i ∈ l, i.timeoutSec = some 20 := by
  simp only [adb_root_check]
  split
  · refine ⟨[Invocation.mk (rootBase (adbTool ap) srl ++ ["shell", "su", "-c", "id"]) (some 20)],
      _run_trace w _ 20, ?_⟩
    simp
  · split
    · refine ⟨[Invocation.mk (rootBase (adbTool ap) srl ++ ["shell", "su", "-c", "id"]) (some 20)],
        _run_trace w _ 20, ?_⟩
      simp
    · split
      · refine ⟨[Invocation.mk (rootBase (adbTool ap) srl ++ ["shell", "su", "-c", "id"]) (some 20),
          Invocation.mk (rootBase (adbTool ap) srl ++ ["shell", "id"]) (some 20)], ?_, ?_⟩
        · rw [_run_trace, _run_trace, List.append_assoc]
          rfl
        · simp
      · split
        · refine ⟨[Invocation.mk (rootBase (adbTool ap) srl ++ ["shell", "su", "-c", "id"]) (some 20),
            Invocation.mk (rootBase (adbTool ap) srl ++ ["shell", "id"]) (some 20)], ?_, ?_⟩
          · rw [_run_trace, _run_trace, List.append_assoc]
            rfl
          · simp
        · refine ⟨[Invocation.mk (rootBase (adbTool ap) srl ++ ["shell", "su", "-c", "id"]) (some 20),
            Invocation.mk (rootBase (adbTool ap) srl ++ ["shell", "id"]) (some 20)], ?_, ?_⟩
          · rw [_run_trace, _run_trace, List.append_assoc]
            rfl
          · simp

theorem decrypt_trace (w : World) (c bd wp cf kf of : String) (ts : Nat) (now : String) :
    ∃ l, (decrypt_whatsapp_db w c bd wp cf kf of ts now).2.trace = w.trace ++ l ∧
      ∀ i ∈ l, i.timeoutSec = some ts := by
  simp only [decrypt_whatsapp_db]
  split
  · exact ⟨[], by simp, by simp⟩
  · split
    · exact ⟨[], by simp, by simp⟩
    · split
      · refine ⟨[Invocation.mk [wp, bd ++ "/" ++ c ++ "/Evidence" ++ "/" ++ kf,
          bd ++ "/" ++ c ++ "/Evidence" ++ "/" ++ cf,
          bd ++ "/" ++ c ++ "/Decrypted" ++ "/" ++ of] (some ts)], rfl, ?_⟩
        simp
      · refine ⟨[Invocation.mk [wp, bd ++ "/" ++ c ++ "/Evidence" ++ "/" ++ kf,
          bd ++ "/" ++ c ++ "/Evidence" ++ "/" ++ cf,
          bd ++ "/" ++ c ++ "/Decrypted" ++ "/" ++ of] (some ts)], rfl, ?_⟩
        simp
      · refine ⟨[Invocation.mk [wp, bd ++ "/" ++ c ++ "/Evidence" ++ "/" ++ kf,
          bd ++ "/" ++ c ++ "/Evidence" ++ "/" ++ cf,
          bd ++ "/" ++ c ++ "/Decrypted" ++ "/" ++ of] (some ts)], ?_, ?_⟩
        · split <;> (first | rfl | (split <;> (first | rfl | (split <;> rfl))))
        · simp

/-- Claim C6 counterexample: a fully successful acquisition makes six
external-process invocations — the three per-entry calls for each of the
two manifest entries — and none of them carries any timeout, refuting
"every external-process invocation carries an explicit timeout between 20
and 180 seconds". -/
theorem C6_cex_acquisition_calls_have_no_timeout :
    (pull_whatsapp_evidence digestFn wAllOk "Case_001").2.trace.map Invocation.timeoutSec =
      [none, none, none, none, none, none] := by
  rfl

/-- Claim C6 amended: the connection-stage and decryption invocations
carry explicit timeouts within 20–180s (20s device probe, 25s wifi
connect, 20s per root sub-check, 180s decrypt as used by the workflow
endpoint) — but every invocation the Evidence Collector
(pull_whatsapp_evidence) issues carries no timeout at all. -/
theorem C6_timeout_policy (h : Bytes → String) :
    (∀ (w : World) (c : String), ∀ i ∈ (pull_whatsapp_evidence h w c).2.trace,
      i ∈ w.trace ∨ i.timeoutSec = none) ∧
    (∀ (w : World) (ap : Option String), ∀ i ∈ (adb_devices w ap).2.trace,
      i ∈ w.trace ∨ ∃ t, i.timeoutSec = some t ∧ 20 ≤ t ∧ t ≤ 180) ∧
    (∀ (w : World) (ip : String) (ap : Option String),
      ∀ i ∈ (adb_connect_wifi w ip ap).2.trace,
      i ∈ w.trace ∨ ∃ t, i.timeoutSec = some t ∧ 20 ≤ t ∧ t ≤ 180) ∧
    (∀ (w : World) (srl ap : Option String), ∀ i ∈ (adb_root_check w srl ap).2.trace,
      i ∈ w.trace ∨ ∃ t, i.timeoutSec = some t ∧ 20 ≤ t ∧ t ≤ 180) ∧
    (∀ (w : World) (c wp now : String), ∀ i ∈ (decrypt_whatsapp_db w c "Cases" wp
        "msgstore.db.crypt14" "key" "msgstore_decrypted.db" 180 now).2.trace,
      i ∈ w.trace ∨ ∃ t, i.timeoutSec = some t ∧ 20 ≤ t ∧ t ≤ 180) := by
  refine ⟨?_, ?_, ?_, ?_, ?_⟩
  · intro w c i hi
    simp only [pull_whatsapp_evidence] at hi
    obtain ⟨l1, hl1, hn1⟩ := pullOne_trace h
      (World.mk w.oracle w.writes w.fs (mkdirs w.dirs ("Cases/" ++ c ++ "/Evidence")) w.calls
        w.trace)
      ("Cases/" ++ c ++ "/Evidence") "msgstore.db" "/sdcard/WhatsApp/Databases/msgstore.db.crypt14"
    obtain ⟨l2, hl2, hn2⟩ := pullOne_trace h _
      ("Cases/" ++ c ++ "/Evidence") "key" "/data/data/com.whatsapp/files/key"
    rw [hl2, hl1] at hi
    rcases List.mem_append.mp hi with hi2 | hi2
    · rcases List.mem_append.mp hi2 with hi3 | hi3
      · exact Or.inl hi3
      · exact Or.inr (hn1 i hi3)
    · exact Or.inr (hn2 i hi2)
  · intro w ap i hi
    rw [adb_devices_trace] at hi
    rcases List.mem_append.mp hi with hi2 | hi2
    · exact Or.inl hi2
    · simp only [List.mem_singleton] at hi2
      exact Or.inr ⟨20, by rw [hi2], by omega, by omega⟩
  · intro w ip ap i hi
    rw [adb_connect_wifi_trace] at hi
    rcases List.mem_append.mp hi with hi2 | hi2
    · exact Or.inl hi2
    · simp only [List.mem_singleton] at hi2
      exact Or.inr ⟨25, by rw [hi2], by omega, by omega⟩
  · intro w srl ap i hi
    obtain ⟨l, hl, hn⟩ := adb_root_check_trace w srl ap
    rw [hl] at hi
    rcases List.mem_append.mp hi with hi2 | hi2
    · exact Or.inl hi2
    · exact Or.inr ⟨20, hn i hi2, by omega, by omega⟩
  · intro w c wp now i hi
    obtain ⟨l, hl, hn⟩ := decrypt_trace w c "Cases" wp "msgstore.db.crypt14" "key"
      "msgstore_decrypted.db" 180 now
    rw [hl] at hi
    rcases List.mem_append.mp hi with hi2 | hi2
    · exact Or.inl hi2
    · exact Or.inr ⟨180, hn i hi2, by omega, by omega⟩

/-- Witness for C6_timeout_policy: the pull invocation of a concrete run
(timeout-less), and the device probe of a concrete connect (20s). -/
theorem C6_timeout_policy_witness :
    (Invocation.mk ["adb", "pull", "/sdcard/msgstore.db", "Cases/Case_001/Evidence/msgstore.db"]
        none ∈ wAllOk.trace ∨
      (Invocation.mk ["adb", "pull", "/sdcard/msgstore.db", "Cases/Case_001/Evidence/msgstore.db"]
        none).timeoutSec = none) ∧
    (Invocation.mk ["adb", "devices"] (some 20) ∈ wOneDevice.trace ∨
      ∃ t, (Invocation.mk ["adb", "devices"] (some 20)).timeoutSec = some t ∧
        20 ≤ t ∧ t ≤ 180) :=
  ⟨(C6_timeout_policy digestFn).1 wAllOk "Case_001" _ (by decide),
   (C6_timeout_policy digestFn).2.1 wOneDevice none _ (by decide)⟩

/-! ## Claim C7 -/

/-- Claim C7 counterexample: when the underlying su identity check times
out, adb_root_check does not swallow the failure into the boolean rooted
outcome — the TimeoutExpired propagates to the caller instead of a result
with ok=true being returned. -/
theorem C7_cex_timeout_raises :
    (adb_root_check wFirstTimesOut none none).1 =
      Except.error (PyExc.timeoutExpired ["adb", "shell", "su", "-c", "id"] (some 20)) := by
  rfl

/-- Claim C7 amended: non-zero exit codes of the identity checks are
swallowed into the boolean outcome: whenever both underlying processes
complete (with any exit codes and outputs), adb_root_check returns a
result with ok=true, attempting the privileged su check first (rooted via
"su" on exit 0 with a uid=0 marker), falling back to the plain id check
(rooted via "id"), otherwise reporting rooted=false — but a timeout or a
missing binary raises to the caller rather than being swallowed. -/
theorem C7_root_check_swallows_exit_codes (w : World) (srl ap : Option String)
    (rc1 rc2 : Int) (o1 s1 o2 s2 : String)
    (h1 : w.oracle w.calls = RunOutcome.completed rc1 o1 s1)
    (h2 : w.oracle (w.calls + 1) = RunOutcome.completed rc2 o2 s2) :
    (adb_root_check w srl ap).1 =
      Except.ok (
        if rc1 == 0 && hasSub (pyStrip o1) "uid=0" then
          RootResult.mk true true "su" (pyStrip o1) (pyStrip s1)
        else if rc2 == 0 && hasSub (pyStrip o2) "uid=0" then
          RootResult.mk true true "id" (pyStrip o2) (pyStrip s2)
        else
          RootResult.mk true false "su/id" (pyOr (pyStrip o1) (pyStrip o2))
            (pyOr (pyStrip s1) (pyStrip s2))) ∧
    (if rc1 == 0 && hasSub (pyStrip o1) "uid=0" then
        RootResult.mk true true "su" (pyStrip o1) (pyStrip s1)
      else if rc2 == 0 && hasSub (pyStrip o2) "uid=0" then
        RootResult.mk true true "id" (pyStrip o2) (pyStrip s2)
      else
        RootResult.mk true false "su/id" (pyOr (pyStrip o1) (pyStrip o2))
          (pyOr (pyStrip s1) (pyStrip s2))).ok = true := by
  constructor
  · simp only [adb_root_check, _run, World.bump]
    rw [h1, h2]
    by_cases hc1 : (rc1 == 0 && hasSub (pyStrip o1) "uid=0") = true
    · simp [hc1]
    · by_cases hc2 : (rc2 == 0 && hasSub (pyStrip o2) "uid=0") = true
      · simp [hc1, hc2]
      · simp [hc1, hc2]
  · split
    · rfl
    · split <;> rfl

/-- Witness for C7_root_check_swallows_exit_codes: su exits 1 and the
plain id check reports a non-root uid, so the result is ok=true with
rooted=false. -/
theorem C7_root_check_swallows_exit_codes_witness :
    (adb_root_check wNotRooted none none).1 =
      Except.ok (RootResult.mk true false "su/id" "uid=2000(shell)" "su: not found") := by
  rw [(C7_root_check_swallows_exit_codes wNotRooted none none 1 0 "" "su: not found"
    "uid=2000(shell)" "" rfl rfl).1]
  rfl

/-! ## Claim C8 -/

theorem isPrefixOf_self_chars (l : List Char) : l.isPrefixOf l = true := by
  induction l with
  | nil => rfl
  | cons c t ih => simp [List.isPrefixOf, ih]

theorem hasSubChars_append_self (s p : List Char) : hasSubChars (s ++ p) p = true := by
  induction s with
  | nil =>
    cases p with
    | nil => rfl
    | cons c t => simp [hasSubChars, isPrefixOf_self_chars]
  | cons c s ih => simp [hasSubChars, ih]

/-- A message built as prefix-plus-path mentions the path. -/
theorem hasSub_append_self (a b : String) : hasSub (a ++ b) b = true := by
  simp only [hasSub, String.toList, String.data_append]
  exact hasSubChars_append_self a.data b.data

/-- Claim C8: for every case whose Evidence directory lacks the key file,
decrypt_whatsapp_db returns ok=false at step "decrypt" with an error
message that names (mentions) the missing key path, and the world is
returned untouched — in particular the external decrypt tool is never
invoked. -/
theorem C8_missing_key_blocks_decrypt (w : World) (c wp now : String) (ts : Nat)
    (hkey : fsGet w.fs ("Cases/" ++ c ++ "/Evidence" ++ "/" ++ "key") = none) :
    ((decrypt_whatsapp_db w c "Cases" wp "msgstore.db.crypt14" "key" "msgstore_decrypted.db"
        ts now).1 = DecResult.mk false "decrypt"
        (some ("Missing key file: " ++ ("Cases" ++ "/" ++ c ++ "/Evidence" ++ "/" ++ "key")))
        none none none none none none) ∧
    ((decrypt_whatsapp_db w c "Cases" wp "msgstore.db.crypt14" "key" "msgstore_decrypted.db"
        ts now).2 = w) ∧
    (hasSub ("Missing key file: " ++ ("Cases" ++ "/" ++ c ++ "/Evidence" ++ "/" ++ "key"))
      ("Cases" ++ "/" ++ c ++ "/Evidence" ++ "/" ++ "key") = true) := by
  refine ⟨?_, ?_, hasSub_append_self _ _⟩ <;> simp [decrypt_whatsapp_db, hkey]

/-- Witness for C8_missing_key_blocks_decrypt at an empty filesystem. -/
theorem C8_missing_key_blocks_decrypt_witness :
    ((decrypt_whatsapp_db wAllOk "Case_001" "Cases" "wadecrypt" "msgstore.db.crypt14" "key"
        "msgstore_decrypted.db" 180 "T").1 = DecResult.mk false "decrypt"
        (some ("Missing key file: " ++
          ("Cases" ++ "/" ++ "Case_001" ++ "/Evidence" ++ "/" ++ "key")))
        none none none none none none) ∧
    ((decrypt_whatsapp_db wAllOk "Case_001" "Cases" "wadecrypt" "msgstore.db.crypt14" "key"
        "msgstore_decrypted.db" 180 "T").2 = wAllOk) ∧
    (hasSub ("Missing key file: " ++ ("Cases" ++ "/" ++ "Case_001" ++ "/Evidence" ++ "/" ++ "key"))
      ("Cases" ++ "/" ++ "Case_001" ++ "/Evidence" ++ "/" ++ "key") = true) :=
  C8_missing_key_blocks_decrypt wAllOk "Case_001" "wadecrypt" "T" 180 rfl

/-! ## Claim C9 -/

/-- The loop body names its entry after the manifest entry. -/
theorem pullOne_file (h : Bytes → String) (w : World) (sp n rp : String) :
    (pullOne h w sp n rp).1.file = n := by
  rcases pullOne_cases h w sp n rp with ⟨hf, _, _⟩ | ⟨b, hrec, _⟩
  · exact hf
  · rw [hrec]

/-- Claim C9: pull_whatsapp_evidence always returns exactly one result per
manifest entry, in manifest order (msgstore.db then key), regardless of
per-file outcomes; every entry is either Success (with no error text) or
Failed carrying the captured error text — one entry's subprocess failure
never aborts collection of the other. -/
theorem C9_one_result_per_entry (h : Bytes → String) (w : World) (c : String) :
    ((pull_whatsapp_evidence h w c).1.length = 2) ∧
    ((pull_whatsapp_evidence h w c).1.map EvResult.file = ["msgstore.db", "key"]) ∧
    (∀ e ∈ (pull_whatsapp_evidence h w c).1,
      (e.status = "Success" ∧ e.error = none) ∨
      (e.status = "Failed" ∧ e.error.isSome = true)) := by
  refine ⟨rfl, ?_, ?_⟩
  · simp only [pull_whatsapp_evidence, List.map]
    rw [pullOne_file, pullOne_file]
  · intro e he
    simp only [pull_whatsapp_evidence, List.mem_cons, List.mem_singleton,
      List.not_mem_nil, or_false] at he
    rcases he with he | he
    · rcases pullOne_cases h
          (World.mk w.oracle w.writes w.fs (mkdirs w.dirs ("Cases/" ++ c ++ "/Evidence"))
            w.calls w.trace)
          ("Cases/" ++ c ++ "/Evidence") "msgstore.db"
          "/sdcard/WhatsApp/Databases/msgstore.db.crypt14" with
        ⟨hf, hst, herr⟩ | ⟨b, hrec, hfs⟩
      · exact Or.inr ⟨by rw [he, hst], by rw [he]; exact herr⟩
      · exact Or.inl ⟨by rw [he, hrec], by rw [he, hrec]⟩
    · rcases pullOne_cases h
          (pullOne h
            (World.mk w.oracle w.writes w.fs (mkdirs w.dirs ("Cases/" ++ c ++ "/Evidence"))
              w.calls w.trace)
            ("Cases/" ++ c ++ "/Evidence") "msgstore.db"
            "/sdcard/WhatsApp/Databases/msgstore.db.crypt14").2
          ("Cases/" ++ c ++ "/Evidence") "key" "/data/data/com.whatsapp/files/key" with
        ⟨hf, hst, herr⟩ | ⟨b, hrec, hfs⟩
      · exact Or.inr ⟨by rw [he, hst], by rw [he]; exact herr⟩
      · exact Or.inl ⟨by rw [he, hrec], by rw [he, hrec]⟩

/-- Witness for C9_one_result_per_entry: the copy of the first entry
fails, yet both entries are reported in order, the first Failed with the
error text and the second Success. -/
theorem C9_one_result_per_entry_witness :
    ((pull_whatsapp_evidence digestFn wCpFail "Case_001").1.length = 2) ∧
    ((pull_whatsapp_evidence digestFn wCpFail "Case_001").1.map EvResult.file =
      ["msgstore.db", "key"]) ∧
    ((EvResult.mk "msgstore.db" "Failed" none none none
        (some "Command returned non-zero exit status 1.")).status = "Failed" ∧
      (EvResult.mk "msgstore.db" "Failed" none none none
        (some "Command returned non-zero exit status 1.")).error.isSome = true) := by
  refine ⟨(C9_one_result_per_entry digestFn wCpFail "Case_001").1,
    (C9_one_result_per_entry digestFn wCpFail "Case_001").2.1, ?_⟩
  have hd := (C9_one_result_per_entry digestFn wCpFail "Case_001").2.2
    (EvResult.mk "msgstore.db" "Failed" none none none
      (some "Command returned non-zero exit status 1.")) (by decide)
  rcases hd with ⟨hs, _⟩ | hd
  · exact absurd hs (by decide)
  · exact hd

/-! ## Claim C10 -/

/-- Claim C10: when the key file or the encrypted database file is
missing under Cases/<caseId>/Evidence, decrypt_whatsapp_db returns its
error before creating the Decrypted directory and before launching any
subprocess: the returned world is exactly the input world. -/
theorem C10_precondition_failure_leaves_world_unchanged (w : World)
    (c bd wp cf kf of now : String) (ts : Nat)
    (hmiss : fsGet w.fs (bd ++ "/" ++ c ++ "/Evidence" ++ "/" ++ kf) = none ∨
      fsGet w.fs (bd ++ "/" ++ c ++ "/Evidence" ++ "/" ++ cf) = none) :
    ((decrypt_whatsapp_db w c bd wp cf kf of ts now).1.ok = false) ∧
    ((decrypt_whatsapp_db w c bd wp cf kf of ts now).1.step = "decrypt") ∧
    ((decrypt_whatsapp_db w c bd wp cf kf of ts now).2 = w) := by
  rcases hmiss with hm | hm
  · refine ⟨?_, ?_, ?_⟩ <;> simp [decrypt_whatsapp_db, hm]
  · by_cases hk : (fsGet w.fs (bd ++ "/" ++ c ++ "/Evidence" ++ "/" ++ kf)).isNone = true
    · refine ⟨?_, ?_, ?_⟩ <;> simp [decrypt_whatsapp_db, hk]
    · refine ⟨?_, ?_, ?_⟩ <;> simp [decrypt_whatsapp_db, hk, hm]

/-- Witness for C10 at a world holding only the key file (the crypt DB is
missing). -/
theorem C10_precondition_failure_witness :
    ((decrypt_whatsapp_db wKeyOnly "Case_001" "Cases" "wadecrypt" "msgstore.db.crypt14" "key"
        "msgstore_decrypted.db" 180 "T").1.ok = false) ∧
    ((decrypt_whatsapp_db wKeyOnly "Case_001" "Cases" "wadecrypt" "msgstore.db.crypt14" "key"
        "msgstore_decrypted.db" 180 "T").1.step = "decrypt") ∧
    ((decrypt_whatsapp_db wKeyOnly "Case_001" "Cases" "wadecrypt" "msgstore.db.crypt14" "key"
        "msgstore_decrypted.db" 180 "T").2 = wKeyOnly) :=
  C10_precondition_failure_leaves_world_unchanged wKeyOnly "Case_001" "Cases" "wadecrypt"
    "msgstore.db.crypt14" "key" "msgstore_decrypted.db" "T" 180 (Or.inr rfl)

end WhisperWA
